import Mathlib

/-!
Shallow embedding of the chat-backend service (`src/server/app/main.py`,
`src/server/app/models.py`).

The three persisted record types follow `models.py`. The database is a state
value holding the three tables together with auto-increment counters and a
logical clock supplying the strictly increasing `utcnow` timestamps that
successive row inserts observe. Each HTTP endpoint of `main.py` becomes a
pure function from the database state (and the request's inputs) to a
response, returning the updated database where the endpoint writes.

The streaming chat endpoint is embedded as a function producing the full
ordered list of NDJSON frames it would emit, parameterised by the outcome of
the upstream inference call (`InferenceResult`): either a successful stream
of content fragments, or a failure raised after some fragments were already
relayed.
-/

namespace Chatbot

/-- User-info claims returned by the identity provider and stored in the
session cookie; `sub` is the external subject id (`google_id`). -/
structure Claims where
  sub : String
  email : String
  name : Option String
  picture : Option String
deriving Repr, DecidableEq

/-- `models.py` `User` row. -/
structure User where
  id : Nat
  google_id : String
  email : String
  name : Option String
  picture : Option String
  created_at : Nat
  last_login : Nat
deriving Repr, DecidableEq

/-- `models.py` `Conversation` row. -/
structure Conversation where
  id : Nat
  user_id : Nat
  title : String
  created_at : Nat
deriving Repr, DecidableEq

/-- `models.py` `Message` row; `sender` is `"user"` or `"ai"`. -/
structure Message where
  id : Nat
  conversation_id : Nat
  sender : String
  content : String
  timestamp : Nat
deriving Repr, DecidableEq

/-- Database state: the three tables, auto-increment id counters, and the
logical clock handing out `utcnow` values (each insert reads the clock for
its timestamp column and advances it). -/
structure DB where
  users : List User
  conversations : List Conversation
  messages : List Message
  nextUserId : Nat
  nextConvId : Nat
  nextMsgId : Nat
  clock : Nat
deriving Repr, DecidableEq

/-- `db.add(User(...)); db.commit()` — insert a fresh `User` row. -/
def DB.insertUser (db : DB) (google_id email : String)
    (name picture : Option String) : User × DB :=
  let u : User := ⟨db.nextUserId, google_id, email, name, picture, db.clock, db.clock⟩
  (u, { db with users := db.users ++ [u],
                nextUserId := db.nextUserId + 1,
                clock := db.clock + 1 })

/-- `db.add(Conversation(...)); db.commit(); db.refresh(...)`. -/
def DB.insertConversation (db : DB) (user_id : Nat) (title : String) :
    Conversation × DB :=
  let c : Conversation := ⟨db.nextConvId, user_id, title, db.clock⟩
  (c, { db with conversations := db.conversations ++ [c],
                nextConvId := db.nextConvId + 1,
                clock := db.clock + 1 })

/-- `db.add(Message(...)); db.commit(); db.refresh(...)`. -/
def DB.insertMessage (db : DB) (conversation_id : Nat)
    (sender content : String) : Message × DB :=
  let m : Message := ⟨db.nextMsgId, conversation_id, sender, content, db.clock⟩
  (m, { db with messages := db.messages ++ [m],
                nextMsgId := db.nextMsgId + 1,
                clock := db.clock + 1 })

/-- Insert into a list kept in descending key order (stable: an element with
an equal key stays in front of the inserted one). -/
def insertByKeyDesc (key : α → Nat) (m : α) : List α → List α
  | [] => [m]
  | x :: xs => if key x ≤ key m then m :: x :: xs else x :: insertByKeyDesc key m xs

/-- `ORDER BY key DESC` (insertion sort, descending). -/
def orderByKeyDesc (key : α → Nat) : List α → List α
  | [] => []
  | x :: xs => insertByKeyDesc key x (orderByKeyDesc key xs)

/-- Insert into a list kept in ascending key order (stable). -/
def insertByKeyAsc (key : α → Nat) (m : α) : List α → List α
  | [] => [m]
  | x :: xs => if key m < key x then m :: x :: xs else x :: insertByKeyAsc key m xs

/-- `ORDER BY key ASC` (insertion sort, ascending). -/
def orderByKeyAsc (key : α → Nat) : List α → List α
  | [] => []
  | x :: xs => insertByKeyAsc key x (orderByKeyAsc key xs)

/-- `main.py:49` `get_current_user_from_session`: read the claims snapshot
from the session cookie and re-resolve it to a `User` row by `google_id`. -/
def get_current_user_from_session (db : DB) (session : Option Claims) :
    Option User :=
  match session with
  | none => none
  | some user_data => db.users.find? (fun u => u.google_id == user_data.sub)

/-- Response of the `GET /auth` callback: a redirect that also establishes a
session holding the claims, or a plain JSON error body with its HTTP status. -/
inductive AuthResponse where
  | redirect (url : String) (sessionSet : Claims)
  | jsonBody (status : Nat) (error : String)
deriving Repr, DecidableEq

/-- `main.py:68` `auth`: the provider callback. `userinfo` is what the
provider's user-info endpoint returned (`none` = no usable claims, the falsy
case of `if user:`). When claims are present: look up the `User` by
`google_id == sub`, create one on first sight, store the claims in the
session and redirect; otherwise reply `{"error": "Authentication failed"}`
as a plain body, which FastAPI delivers with status 200. -/
def auth (db : DB) (userinfo : Option Claims) : AuthResponse × DB :=
  match userinfo with
  | some user =>
    match db.users.find? (fun u => u.google_id == user.sub) with
    | some _ => (.redirect "http://localhost:3000/chat" user, db)
    | none =>
      (.redirect "http://localhost:3000/chat" user,
       (db.insertUser user.sub user.email user.name user.picture).2)
  | none => (.jsonBody 200 "Authentication failed", db)

/-- A JSON API response: success body or `HTTPException(status, detail)`. -/
inductive ApiResponse (α : Type) where
  | ok (body : α)
  | httpError (status : Nat) (detail : String)
deriving Repr, DecidableEq

/-- `main.py:113` `GET /api/conversations`: the caller's conversations,
newest first by creation time. -/
def get_conversations (db : DB) (session : Option Claims) :
    ApiResponse (List Conversation) :=
  match get_current_user_from_session db session with
  | none => .httpError 401 "Not authenticated"
  | some db_user =>
    .ok (orderByKeyDesc (fun c => c.created_at)
      (db.conversations.filter (fun c => c.user_id == db_user.id)))

/-- `main.py:136` `POST /api/conversations`: create a conversation with the
given title (`"New Chat"` when the body omits it). -/
def create_conversation (db : DB) (session : Option Claims)
    (title : Option String) : ApiResponse Conversation × DB :=
  match get_current_user_from_session db session with
  | none => (.httpError 401 "Not authenticated", db)
  | some db_user =>
    (.ok (db.insertConversation db_user.id (title.getD "New Chat")).1,
     (db.insertConversation db_user.id (title.getD "New Chat")).2)

/-- `main.py:162` `DELETE /api/conversations/{id}`: delete the conversation
scoped to the caller; its messages go with it via the schema's cascade. -/
def delete_conversation (db : DB) (session : Option Claims)
    (conversation_id : Nat) : ApiResponse String × DB :=
  match get_current_user_from_session db session with
  | none => (.httpError 401 "Not authenticated", db)
  | some db_user =>
    match db.conversations.find?
        (fun c => c.id == conversation_id && c.user_id == db_user.id) with
    | none => (.httpError 404 "Conversation not found", db)
    | some conversation =>
      (.ok "Conversation deleted",
        { db with
          conversations :=
            db.conversations.filter (fun c => !(c.id == conversation.id)),
          messages :=
            db.messages.filter (fun m => !(m.conversation_id == conversation.id)) })

/-- `main.py:189` `GET /api/conversations/{id}/messages`: all messages of the
conversation in ascending timestamp order, scoped to the caller. -/
def get_messages (db : DB) (session : Option Claims) (conversation_id : Nat) :
    ApiResponse (List Message) :=
  match get_current_user_from_session db session with
  | none => .httpError 401 "Not authenticated"
  | some db_user =>
    match db.conversations.find?
        (fun c => c.id == conversation_id && c.user_id == db_user.id) with
    | none => .httpError 404 "Conversation not found"
    | some _ =>
      .ok (orderByKeyAsc (fun m => m.timestamp)
        (db.messages.filter (fun m => m.conversation_id == conversation_id)))

/-- `POST /api/chat` request body (`ChatRequest` in `main.py:21`). -/
structure ChatRequest where
  message : String
  conversation_id : Option Nat
deriving Repr, DecidableEq

/-- One entry of the context window sent to the inference service. -/
structure OllamaMsg where
  role : String
  content : String
deriving Repr, DecidableEq

/-- Outcome of the upstream inference call inside `event_generator`:
`ok chunks` — the stream delivered these content fragments and then signalled
completion; `fail chunks details` — the fragments were delivered, then the
call raised an exception rendered as `details` (connection error, bad
status from `raise_for_status`, or a malformed line in `json.loads`). -/
inductive InferenceResult where
  | ok (chunks : List String)
  | fail (chunks : List String) (details : String)
deriving Repr, DecidableEq

/-- One NDJSON frame of the chat stream. -/
inductive Frame where
  | meta (conversation_id : Nat) (user_message_id : Nat) (content : String)
      (timestamp : Nat)
  | content (content : String)
  | error (content : String)
  | done (ai_message_id : Nat) (content : String) (timestamp : Nat)
deriving Repr, DecidableEq

/-- `Frame.isMeta f` holds exactly on `"meta"` frames. -/
def Frame.isMeta : Frame → Bool
  | .meta _ _ _ _ => true
  | _ => false

/-- `Frame.isDone f` holds exactly on `"done"` frames. -/
def Frame.isDone : Frame → Bool
  | .done _ _ _ => true
  | _ => false

/-- `Frame.isError f` holds exactly on `"error"` frames. -/
def Frame.isError : Frame → Bool
  | .error _ => true
  | _ => false

/-- `main.py:241` Python truth test `if not conversation_id:` — true for an
absent id and for the integer `0`. -/
def isFalsy : Option Nat → Bool
  | none => true
  | some n => n == 0

/-- `main.py:242`: `message[:50] + "..." if len(message) > 50 else message`. -/
def truncatedTitle (message : String) : String :=
  if message.length > 50 then message.take 50 ++ "..." else message

/-- `main.py:278-282`: the context-window query — messages of the
conversation, ordered by timestamp descending, limited to 10, then the
Python-side `history.reverse()` back to chronological order. -/
def contextWindow (db : DB) (conversation_id : Nat) : List Message :=
  ((orderByKeyDesc (fun m => m.timestamp)
    (db.messages.filter (fun m => m.conversation_id == conversation_id))).take 10).reverse

/-- `main.py:284`: map a history row to its inference-service role/content
pair — role `"user"` for sender `"user"`, `"assistant"` otherwise. -/
def roleOf (m : Message) : OllamaMsg :=
  { role := if m.sender == "user" then "user" else "assistant"
    content := m.content }

/-- Everything one run of `event_generator` produces, in order: the database
snapshot it starts from (the user message is already committed there), the
context window it sends upstream, the full frame sequence it yields, the
persisted `"ai"` message and the final database state. -/
structure StreamResult where
  conversationId : Nat
  dbAfterUserCommit : DB
  userMsg : Message
  sentContext : List OllamaMsg
  frames : List Frame
  aiMsg : Message
  dbFinal : DB
deriving Repr, DecidableEq

/-- `main.py:266` `event_generator`: yield the `"meta"` frame, query the
context window, relay each inference fragment as a `"content"` frame while
accumulating `full_response` (on failure yield one `"error"` frame and make
the error text the whole `full_response`), persist the `"ai"` message, and
yield the final `"done"` frame. -/
def event_generator (db : DB) (conversation_id : Nat) (user_message : Message)
    (inf : InferenceResult) : StreamResult :=
  let history := contextWindow db conversation_id
  let ollama_messages := history.map roleOf
  let full_response :=
    match inf with
    | .ok chunks => String.join chunks
    | .fail _ details => "Ollama Connection Error: " ++ details
  let midFrames :=
    match inf with
    | .ok chunks => chunks.map Frame.content
    | .fail chunks details =>
      chunks.map Frame.content ++ [Frame.error ("Ollama Connection Error: " ++ details)]
  let ai_message := (db.insertMessage conversation_id "ai" full_response).1
  { conversationId := conversation_id
    dbAfterUserCommit := db
    userMsg := user_message
    sentContext := ollama_messages
    frames :=
      Frame.meta conversation_id user_message.id user_message.content
          user_message.timestamp
        :: (midFrames ++ [Frame.done ai_message.id ai_message.content ai_message.timestamp])
    aiMsg := ai_message
    dbFinal := (db.insertMessage conversation_id "ai" full_response).2 }

/-- Response of `POST /api/chat`: a pre-stream `HTTPException`, or the
streamed NDJSON response. -/
inductive ChatResult where
  | httpError (status : Nat) (detail : String)
  | stream (r : StreamResult)
deriving Repr, DecidableEq

/-- `main.py:256-264` and the hand-off to the generator: persist the
`"user"` message under the resolved conversation, then stream. -/
def chatWithConversation (db : DB) (conversation_id : Nat)
    (chat_request : ChatRequest) (inf : InferenceResult) : ChatResult :=
  .stream (event_generator
    (db.insertMessage conversation_id "user" chat_request.message).2
    conversation_id
    (db.insertMessage conversation_id "user" chat_request.message).1 inf)

/-- `main.py:227` `chat` (`POST /api/chat`): authenticate, resolve or
auto-create the conversation (`if not conversation_id:` — the auto-created
conversation's title is the truncated message), persist the user message,
then stream the reply. -/
def chat (db : DB) (session : Option Claims) (chat_request : ChatRequest)
    (inf : InferenceResult) : ChatResult :=
  match get_current_user_from_session db session with
  | none => .httpError 401 "Not authenticated"
  | some db_user =>
    if isFalsy chat_request.conversation_id then
      chatWithConversation
        (db.insertConversation db_user.id (truncatedTitle chat_request.message)).2
        (db.insertConversation db_user.id (truncatedTitle chat_request.message)).1.id
        chat_request inf
    else
      match db.conversations.find?
          (fun c => c.id == chat_request.conversation_id.getD 0
                    && c.user_id == db_user.id) with
      | none => .httpError 404 "Conversation not found"
      | some conversation =>
        chatWithConversation db conversation.id chat_request inf

/-- Database well-formedness used by the ordering claims: message rows are
listed in strictly increasing timestamp order (each insert reads a fresh
clock value) and every stored timestamp is below the current clock. -/
def DB.WF (db : DB) : Prop :=
  db.messages.Pairwise (fun a b => a.timestamp < b.timestamp) ∧
  ∀ m ∈ db.messages, m.timestamp < db.clock

/-- Fixed identity-provider claims used for concrete instantiations. -/
def exClaims : Claims := ⟨"g", "e@x", none, none⟩

/-- A persisted user row matching `exClaims` (`google_id = "g"`). -/
def exUser : User := ⟨1, "g", "e@x", none, none, 0, 0⟩

/-- A database holding just `exUser`, no conversations, no messages. -/
def exDb : DB := ⟨[exUser], [], [], 2, 1, 1, 1⟩

theorem insertByKeyDesc_of_lt (key : α → Nat) (m : α) (l : List α)
    (h : ∀ x ∈ l, key m < key x) : insertByKeyDesc key m l = l ++ [m] := by
  induction l with
  | nil => rfl
  | cons x xs ih =>
    have hx : key m < key x := h x (List.mem_cons_self x xs)
    simp only [insertByKeyDesc, if_neg (Nat.not_le.mpr hx), List.cons_append,
      List.cons.injEq, true_and]
    exact ih (fun y hy => h y (List.mem_cons_of_mem x hy))

theorem orderByKeyDesc_of_sorted (key : α → Nat) (l : List α)
    (h : l.Pairwise (fun a b => key a < key b)) :
    orderByKeyDesc key l = l.reverse := by
  induction l with
  | nil => rfl
  | cons x xs ih =>
    rcases List.pairwise_cons.mp h with ⟨hx, hxs⟩
    rw [orderByKeyDesc, ih hxs, List.reverse_cons]
    exact insertByKeyDesc_of_lt key x xs.reverse
      (fun y hy => hx y (List.mem_reverse.mp hy))

/-- C6: any request to the conversation, message, or chat endpoints whose
session does not resolve to a persisted User row yields HTTP 401
"Not authenticated" and leaves the database untouched. -/
theorem c6_unauthenticated_401 {db : DB} {s : Option Claims}
    (h : get_current_user_from_session db s = none)
    (title : Option String) (cid : Nat) (req : ChatRequest)
    (inf : InferenceResult) :
    get_conversations db s = .httpError 401 "Not authenticated" ∧
    create_conversation db s title = (.httpError 401 "Not authenticated", db) ∧
    delete_conversation db s cid = (.httpError 401 "Not authenticated", db) ∧
    get_messages db s cid = .httpError 401 "Not authenticated" ∧
    chat db s req inf = .httpError 401 "Not authenticated" := by
  refine ⟨?_, ?_, ?_, ?_, ?_⟩ <;>
    simp [get_conversations, create_conversation, delete_conversation,
      get_messages, chat, h]

theorem c6_witness :
    get_current_user_from_session exDb none = none ∧
    chat exDb none ⟨"hi", none⟩ (.ok []) = .httpError 401 "Not authenticated" :=
  ⟨rfl, (c6_unauthenticated_401
    (rfl : get_current_user_from_session exDb none = none)
    none 0 ⟨"hi", none⟩ (.ok [])).2.2.2.2⟩

/-- C8: a provider callback for a `google_id` that already has a User row
creates no second row and changes nothing — `auth` returns the redirect and
the database exactly as it was, so every field of the existing row (email,
name, picture, created_at, last_login) is unchanged. -/
theorem c8_repeat_callback_no_change {db : DB} {claims : Claims}
    (h : ∃ u ∈ db.users, u.google_id = claims.sub) :
    auth db (some claims) =
      (.redirect "http://localhost:3000/chat" claims, db) := by
  obtain ⟨u, hu, hg⟩ := h
  have hsome : (db.users.find? (fun v => v.google_id == claims.sub)).isSome :=
    List.find?_isSome.mpr ⟨u, hu, by simp [hg]⟩
  obtain ⟨w, hw⟩ := Option.isSome_iff_exists.mp hsome
  simp [auth, hw]

theorem c8_witness :
    auth exDb (some exClaims) =
      (.redirect "http://localhost:3000/chat" exClaims, exDb) :=
  c8_repeat_callback_no_change ⟨exUser, by simp [exDb], rfl⟩

/-- C9: a provider callback with no usable claims yields the JSON body
`{"error": "Authentication failed"}` under a success-shaped status (200),
creates no User row and establishes no session (the response carries no
session, unlike the redirect branch). -/
theorem c9_provider_failure_200 (db : DB) :
    auth db none = (AuthResponse.jsonBody 200 "Authentication failed", db) :=
  rfl

/-- C5 falls at conversation id 0: for an authenticated caller and a
nonexistent conversation 0, the messages and delete endpoints answer 404,
but `POST /api/chat` with `conversation_id = 0` does not — the responses of
the three endpoints are not identical there. -/
theorem c5_counterexample :
    get_messages exDb (some exClaims) 0 =
      .httpError 404 "Conversation not found" ∧
    (delete_conversation exDb (some exClaims) 0).1 =
      .httpError 404 "Conversation not found" ∧
    chat exDb (some exClaims) ⟨"hi", some 0⟩ (.ok [])
      ≠ ChatResult.httpError 404 "Conversation not found" :=
  ⟨by decide, by decide, by decide⟩

/-- C5 (amended): for every authenticated caller and conversation id, when
no conversation with that id is owned by the caller — whether it does not
exist at all or belongs to another user — the messages and delete endpoints
answer with the identical 404 response, and so does chat for every nonzero
conversation id (a zero id is falsy and auto-creates a conversation
instead, see C10). -/
theorem c5_scoped_404_indistinguishable {db : DB} {s : Option Claims}
    {u : User} (cid : Nat)
    (hu : get_current_user_from_session db s = some u)
    (hnone : ∀ c ∈ db.conversations, c.id = cid → c.user_id ≠ u.id) :
    get_messages db s cid = .httpError 404 "Conversation not found" ∧
    delete_conversation db s cid =
      (.httpError 404 "Conversation not found", db) ∧
    ∀ msg inf, cid ≠ 0 →
      chat db s ⟨msg, some cid⟩ inf =
        .httpError 404 "Conversation not found" := by
  have hfind :
      db.conversations.find? (fun c => c.id == cid && c.user_id == u.id)
        = none := by
    refine List.find?_eq_none.mpr (fun c hc => ?_)
    by_cases hid : c.id = cid
    · simp [hid, hnone c hc hid]
    · simp [hid]
  refine ⟨?_, ?_, ?_⟩
  · simp [get_messages, hu, hfind]
  · simp [delete_conversation, hu, hfind]
  · intro msg inf hcid
    have hfl : isFalsy (some cid) = false := by simp [isFalsy, hcid]
    simp [chat, hu, hfl, hfind]

theorem chat_stream_inv {db : DB} {s : Option Claims} {req : ChatRequest}
    {inf : InferenceResult} {r : StreamResult}
    (h : chat db s req inf = .stream r) :
    ∃ (u : User) (dbc : DB) (cid : Nat),
      get_current_user_from_session db s = some u ∧
      dbc.messages = db.messages ∧
      db.clock ≤ dbc.clock ∧
      db.conversations.Sublist dbc.conversations ∧
      r = event_generator (dbc.insertMessage cid "user" req.message).2 cid
            (dbc.insertMessage cid "user" req.message).1 inf := by
  unfold chat at h
  cases hu : get_current_user_from_session db s with
  | none => rw [hu] at h; cases h
  | some db_user =>
    rw [hu] at h
    simp only at h
    cases hf : isFalsy req.conversation_id with
    | true =>
      rw [hf, if_pos rfl] at h
      unfold chatWithConversation at h
      refine ⟨db_user,
        (db.insertConversation db_user.id (truncatedTitle req.message)).2,
        (db.insertConversation db_user.id (truncatedTitle req.message)).1.id,
        rfl, by simp [DB.insertConversation], by simp [DB.insertConversation],
        by simp [DB.insertConversation], (ChatResult.stream.inj h).symm⟩
    | false =>
      rw [hf] at h
      simp only [Bool.false_eq_true, if_false] at h
      cases hfind : db.conversations.find?
          (fun c => c.id == req.conversation_id.getD 0
                    && c.user_id == db_user.id) with
      | none => rw [hfind] at h; cases h
      | some conv =>
        rw [hfind] at h
        unfold chatWithConversation at h
        exact ⟨db_user, db, conv.id, rfl, rfl, Nat.le_refl _,
          List.Sublist.refl _, (ChatResult.stream.inj h).symm⟩

theorem countP_content_map (p : Frame → Bool)
    (hp : ∀ c, p (Frame.content c) = false) (l : List String) :
    (l.map Frame.content).countP p = 0 := by
  induction l with
  | nil => rfl
  | cons x xs ih => simp [List.countP_cons, hp, ih]

/-- C1: whenever `POST /api/chat` reaches the streaming phase, the user's
message is already committed in the database snapshot the stream starts
from, and the frame sequence is ordered: exactly one "meta" frame first,
then content frames, then at most one "error" frame, then exactly one
"done" frame last. -/
theorem c1_commit_then_ordered_frames {db : DB} {s : Option Claims}
    {req : ChatRequest} {inf : InferenceResult} {r : StreamResult}
    (h : chat db s req inf = .stream r) :
    r.userMsg ∈ r.dbAfterUserCommit.messages ∧
    r.userMsg.sender = "user" ∧ r.userMsg.content = req.message ∧
    ∃ mid err,
      (∀ f ∈ mid, ∃ c, f = Frame.content c) ∧
      (err = [] ∨ ∃ e, err = [Frame.error e]) ∧
      r.frames =
        Frame.meta r.conversationId r.userMsg.id r.userMsg.content
            r.userMsg.timestamp
          :: (mid ++ err
              ++ [Frame.done r.aiMsg.id r.aiMsg.content r.aiMsg.timestamp]) ∧
      r.frames.countP Frame.isMeta = 1 ∧
      r.frames.countP Frame.isDone = 1 := by
  obtain ⟨u, dbc, cid, hu, hmsg, hclk, hconv, hr⟩ := chat_stream_inv h
  subst hr
  refine ⟨by simp [event_generator, DB.insertMessage], rfl, rfl, ?_⟩
  cases inf with
  | ok chunks =>
    refine ⟨chunks.map Frame.content, [], ?_, Or.inl rfl, ?_, ?_, ?_⟩
    · intro f hf
      obtain ⟨c, _, rfl⟩ := List.mem_map.mp hf
      exact ⟨c, rfl⟩
    · simp [event_generator, DB.insertMessage]
    · simp [event_generator, List.countP_cons, List.countP_append,
        countP_content_map Frame.isMeta (fun c => rfl), Frame.isMeta]
    · simp [event_generator, List.countP_cons, List.countP_append,
        countP_content_map Frame.isDone (fun c => rfl), Frame.isDone]
  | fail chunks details =>
    refine ⟨chunks.map Frame.content,
      [Frame.error ("Ollama Connection Error: " ++ details)], ?_,
      Or.inr ⟨_, rfl⟩, ?_, ?_, ?_⟩
    · intro f hf
      obtain ⟨c, _, rfl⟩ := List.mem_map.mp hf
      exact ⟨c, rfl⟩
    · simp [event_generator, DB.insertMessage]
    · simp [event_generator, List.countP_cons, List.countP_append,
        countP_content_map Frame.isMeta (fun c => rfl), Frame.isMeta]
    · simp [event_generator, List.countP_cons, List.countP_append,
        countP_content_map Frame.isDone (fun c => rfl), Frame.isDone]

theorem c1_witness :
    ∃ r, chat exDb (some exClaims) ⟨"hi", none⟩ (.ok ["a"]) = .stream r ∧
      r.userMsg ∈ r.dbAfterUserCommit.messages ∧
      r.frames.countP Frame.isMeta = 1 ∧
      r.frames.countP Frame.isDone = 1 := by
  obtain ⟨h1, h2, h3, mid, err, hmid, herr, hfr, hm, hd⟩ :=
    c1_commit_then_ordered_frames
      (show chat exDb (some exClaims) ⟨"hi", none⟩ (.ok ["a"]) = .stream _
        from rfl)
  exact ⟨_, rfl, h1, hm, hd⟩

/-- C2: when the inference call fails after relaying some fragments, the
stream is the "meta" frame, those content frames, exactly one "error" frame
holding `"Ollama Connection Error: " ++ details`, and the final "done"
frame; the persisted `"ai"` message holds exactly that error text. -/
theorem c2_failure_error_frame {db : DB} {s : Option Claims}
    {req : ChatRequest} {chunks : List String} {details : String}
    {r : StreamResult}
    (h : chat db s req (.fail chunks details) = .stream r) :
    r.frames =
      Frame.meta r.conversationId r.userMsg.id r.userMsg.content
          r.userMsg.timestamp
        :: (chunks.map Frame.content
            ++ [Frame.error ("Ollama Connection Error: " ++ details),
                Frame.done r.aiMsg.id r.aiMsg.content r.aiMsg.timestamp]) ∧
    r.frames.countP Frame.isError = 1 ∧
    r.aiMsg.sender = "ai" ∧
    r.aiMsg.content = "Ollama Connection Error: " ++ details ∧
    r.aiMsg ∈ r.dbFinal.messages := by
  obtain ⟨u, dbc, cid, hu, hmsg, hclk, hconv, hr⟩ := chat_stream_inv h
  subst hr
  refine ⟨?_, ?_, rfl, rfl, ?_⟩
  · simp [event_generator, DB.insertMessage]
  · simp [event_generator, List.countP_cons, List.countP_append,
      countP_content_map Frame.isError (fun c => rfl), Frame.isError]
  · simp [event_generator, DB.insertMessage]

theorem c2_witness :
    ∃ r, chat exDb (some exClaims) ⟨"hi", none⟩ (.fail ["a"] "boom")
        = .stream r ∧
      r.frames.countP Frame.isError = 1 ∧
      r.aiMsg.content = "Ollama Connection Error: " ++ "boom" ∧
      r.aiMsg ∈ r.dbFinal.messages := by
  obtain ⟨h1, h2, h3, h4, h5⟩ :=
    c2_failure_error_frame
      (show chat exDb (some exClaims) ⟨"hi", none⟩ (.fail ["a"] "boom")
          = .stream _ from rfl)
  exact ⟨_, rfl, h2, h4, h5⟩

/-- C4: a completed chat stream leaves exactly two new messages appended to
the table, first the `"user"` one with the request text, then the `"ai"`
one with the accumulated reply, both under the resolved conversation, and
the `"ai"` timestamp is not earlier than the `"user"` timestamp. -/
theorem c4_two_messages_persisted {db : DB} {s : Option Claims}
    {req : ChatRequest} {inf : InferenceResult} {r : StreamResult}
    (h : chat db s req inf = .stream r) :
    r.dbFinal.messages = db.messages ++ [r.userMsg, r.aiMsg] ∧
    r.userMsg.sender = "user" ∧ r.userMsg.content = req.message ∧
    r.aiMsg.sender = "ai" ∧
    r.userMsg.conversation_id = r.conversationId ∧
    r.aiMsg.conversation_id = r.conversationId ∧
    r.userMsg.timestamp ≤ r.aiMsg.timestamp ∧
    (∀ chunks, inf = .ok chunks → r.aiMsg.content = String.join chunks) := by
  obtain ⟨u, dbc, cid, hu, hmsg, hclk, hconv, hr⟩ := chat_stream_inv h
  subst hr
  refine ⟨?_, rfl, rfl, rfl, rfl, rfl, ?_, ?_⟩
  · simp [event_generator, DB.insertMessage, hmsg]
  · exact Nat.le_succ dbc.clock
  · rintro chunks rfl
    rfl

theorem c4_witness :
    ∃ r, chat exDb (some exClaims) ⟨"hi", none⟩ (.ok ["a", "b"])
        = .stream r ∧
      r.dbFinal.messages = exDb.messages ++ [r.userMsg, r.aiMsg] ∧
      r.userMsg.timestamp ≤ r.aiMsg.timestamp ∧
      r.aiMsg.content = String.join ["a", "b"] := by
  obtain ⟨h1, h2, h3, h4, h5, h6, h7, h8⟩ :=
    c4_two_messages_persisted
      (show chat exDb (some exClaims) ⟨"hi", none⟩ (.ok ["a", "b"])
          = .stream _ from rfl)
  exact ⟨_, rfl, h1, h7, h8 _ rfl⟩

theorem c5_witness :
    get_messages exDb (some exClaims) 3 =
      .httpError 404 "Conversation not found" ∧
    delete_conversation exDb (some exClaims) 3 =
      (.httpError 404 "Conversation not found", exDb) ∧
    chat exDb (some exClaims) ⟨"hi", some 3⟩ (.ok []) =
      .httpError 404 "Conversation not found" := by
  have hu : get_current_user_from_session exDb (some exClaims) = some exUser :=
    rfl
  have h := c5_scoped_404_indistinguishable 3 hu (by simp [exDb])
  exact ⟨h.1, h.2.1, h.2.2 "hi" (.ok []) (by decide)⟩

/-- C7: a chat request with no `conversation_id` auto-creates a
conversation whose title is the message verbatim when it has at most 50
characters, and the first 50 characters followed by the literal `"..."`
(53 characters in all) when the message is longer. -/
theorem c7_auto_created_title {db : DB} {s : Option Claims} {msg : String}
    {inf : InferenceResult} {r : StreamResult}
    (h : chat db s ⟨msg, none⟩ inf = .stream r) :
    ∃ c ∈ r.dbFinal.conversations,
      c.id = r.conversationId ∧
      c.title = truncatedTitle msg ∧
      (msg.length ≤ 50 → c.title = msg) ∧
      (50 < msg.length →
        c.title = msg.take 50 ++ "..." ∧ c.title.length = 53) := by
  unfold chat at h
  cases hu : get_current_user_from_session db s with
  | none => rw [hu] at h; cases h
  | some db_user =>
    rw [hu] at h
    simp only [isFalsy, if_true] at h
    unfold chatWithConversation at h
    have hr := (ChatResult.stream.inj h).symm
    subst hr
    refine ⟨(db.insertConversation db_user.id (truncatedTitle msg)).1,
      ?_, rfl, rfl, ?_, ?_⟩
    · simp [event_generator, DB.insertMessage, DB.insertConversation]
    · intro hle
      simp [DB.insertConversation, truncatedTitle, Nat.not_lt.mpr hle]
    · intro hgt
      have htake : (msg.take 50).length = 50 := by
        rw [String.take_eq, String.length_mk, List.length_take]
        exact Nat.min_eq_left (Nat.le_of_lt hgt)
      constructor
      · simp [DB.insertConversation, truncatedTitle, hgt]
      · show (truncatedTitle msg).length = 53
        unfold truncatedTitle
        rw [if_pos hgt, String.length_append, htake]
        rfl

set_option maxRecDepth 8000 in
theorem c7_witness :
    ∃ r, chat exDb (some exClaims)
        ⟨String.mk (List.replicate 51 'x'), none⟩ (.ok []) = .stream r ∧
      ∃ c ∈ r.dbFinal.conversations,
        c.id = r.conversationId ∧
        c.title = (String.mk (List.replicate 51 'x')).take 50 ++ "..." ∧
        c.title.length = 53 := by
  obtain ⟨c, hc, hid, ht, hle, hgt⟩ :=
    c7_auto_created_title
      (show chat exDb (some exClaims)
          ⟨String.mk (List.replicate 51 'x'), none⟩ (.ok []) = .stream _
        from rfl)
  have h51 : 50 < (String.mk (List.replicate 51 'x')).length := by
    show 50 < (List.replicate 51 'x').length
    simp
  exact ⟨_, rfl, c, hc, hid, (hgt h51).1, (hgt h51).2⟩

/-- C10: an authenticated chat request with `conversation_id = 0` is
handled exactly like one with no `conversation_id`: the falsy check makes
both auto-create a fresh conversation owned by the caller (no 404). -/
theorem c10_zero_id_like_absent {db : DB} {s : Option Claims} {u : User}
    (msg : String) (inf : InferenceResult)
    (hu : get_current_user_from_session db s = some u) :
    chat db s ⟨msg, some 0⟩ inf = chat db s ⟨msg, none⟩ inf ∧
    ∃ r, chat db s ⟨msg, some 0⟩ inf = .stream r ∧
      r.conversationId = db.nextConvId ∧
      ∃ c ∈ r.dbFinal.conversations,
        c.id = db.nextConvId ∧ c.user_id = u.id ∧
        c.title = truncatedTitle msg := by
  constructor
  · unfold chat
    rw [hu]
    rfl
  · unfold chat
    rw [hu]
    refine ⟨_, rfl, rfl, (db.insertConversation u.id (truncatedTitle msg)).1,
      ?_, rfl, rfl, rfl⟩
    simp [chatWithConversation, event_generator, DB.insertMessage,
      DB.insertConversation]

theorem c10_witness :
    chat exDb (some exClaims) ⟨"hi", some 0⟩ (.ok [])
      = chat exDb (some exClaims) ⟨"hi", none⟩ (.ok []) ∧
    ∃ r, chat exDb (some exClaims) ⟨"hi", some 0⟩ (.ok []) = .stream r ∧
      r.conversationId = exDb.nextConvId := by
  obtain ⟨heq, r, hr, hid, _⟩ :=
    c10_zero_id_like_absent "hi" (InferenceResult.ok [])
      (show get_current_user_from_session exDb (some exClaims) = some exUser
        from rfl)
  exact ⟨heq, r, hr, hid⟩

theorem getLast?_take_reverse_concat (l : List α) (a : α) (n : Nat)
    (hn : 0 < n) :
    ((((l ++ [a]).reverse).take n).reverse).getLast? = some a := by
  cases n with
  | zero => exact absurd hn (by simp)
  | succ m =>
    rw [List.reverse_append]
    simp only [List.reverse_cons, List.reverse_nil, List.nil_append,
      List.singleton_append]
    rw [List.take_succ_cons, List.reverse_cons]
    exact List.getLast?_concat _

/-- C3: on a well-formed database, the context window sent to the inference
service has at most 10 entries and is the role/content image of a
chronologically ordered (nondecreasing timestamps) selection of the
conversation's messages; whenever the conversation holds at least 10
messages, the last entry of the window is the just-submitted user message. -/
theorem c3_context_window_bound {db : DB} {s : Option Claims}
    {req : ChatRequest} {inf : InferenceResult} {r : StreamResult}
    (hwf : db.WF) (h : chat db s req inf = .stream r) :
    r.sentContext.length ≤ 10 ∧
    ∃ window : List Message,
      r.sentContext = window.map roleOf ∧
      window.Sublist
        (r.dbAfterUserCommit.messages.filter
          (fun m => m.conversation_id == r.conversationId)) ∧
      window.Pairwise (fun a b => a.timestamp ≤ b.timestamp) ∧
      (10 ≤ (r.dbAfterUserCommit.messages.filter
            (fun m => m.conversation_id == r.conversationId)).length →
        r.sentContext.getLast? = some (OllamaMsg.mk "user" req.message)) := by
  obtain ⟨hpair, hlt⟩ := hwf
  obtain ⟨u, dbc, cid, hu, hmsg, hclk, hconv, hr⟩ := chat_stream_inv h
  subst hr
  have hfiltered :
      ((dbc.insertMessage cid "user" req.message).2.messages.filter
        (fun m => m.conversation_id == cid))
      = db.messages.filter (fun m => m.conversation_id == cid)
        ++ [(dbc.insertMessage cid "user" req.message).1] := by
    show ((dbc.messages ++ [(dbc.insertMessage cid "user" req.message).1]).filter
        (fun m => m.conversation_id == cid)) = _
    rw [hmsg, List.filter_append]
    simp [DB.insertMessage]
  have hstrict :
      ((dbc.insertMessage cid "user" req.message).2.messages.filter
        (fun m => m.conversation_id == cid)).Pairwise
        (fun a b => a.timestamp < b.timestamp) := by
    rw [hfiltered]
    refine List.pairwise_append.mpr ⟨hpair.sublist (List.filter_sublist _),
      List.pairwise_singleton _ _, ?_⟩
    intro a ha b hb
    rw [List.mem_singleton] at hb
    subst hb
    show a.timestamp < dbc.clock
    exact Nat.lt_of_lt_of_le (hlt a (List.mem_filter.mp ha).1) hclk
  have hcw :
      contextWindow (dbc.insertMessage cid "user" req.message).2 cid
      = ((((db.messages.filter (fun m => m.conversation_id == cid))
          ++ [(dbc.insertMessage cid "user" req.message).1]).reverse).take
            10).reverse := by
    unfold contextWindow
    rw [orderByKeyDesc_of_sorted (fun m : Message => m.timestamp) _ hstrict,
      hfiltered]
  have hsub :
      (contextWindow (dbc.insertMessage cid "user" req.message).2 cid).Sublist
        ((dbc.insertMessage cid "user" req.message).2.messages.filter
          (fun m => m.conversation_id == cid)) := by
    rw [hcw, hfiltered]
    have h1 := (List.take_sublist 10
      ((db.messages.filter (fun m => m.conversation_id == cid)
        ++ [(dbc.insertMessage cid "user" req.message).1]).reverse)).reverse
    rwa [List.reverse_reverse] at h1
  refine ⟨?_, contextWindow (dbc.insertMessage cid "user" req.message).2 cid,
    rfl, hsub, ?_, ?_⟩
  · show ((contextWindow (dbc.insertMessage cid "user" req.message).2 cid).map
      roleOf).length ≤ 10
    rw [List.length_map, hcw, List.length_reverse, List.length_take]
    exact Nat.min_le_left _ _
  · exact (hstrict.sublist hsub).imp Nat.le_of_lt
  · intro _
    show ((contextWindow (dbc.insertMessage cid "user" req.message).2 cid).map
      roleOf).getLast? = _
    rw [List.getLast?_map, hcw,
      getLast?_take_reverse_concat _ _ 10 (by omega)]
    rfl

theorem c3_witness :
    DB.WF exDb ∧
    ∃ r, chat exDb (some exClaims) ⟨"hi", none⟩ (.ok []) = .stream r ∧
      r.sentContext.length ≤ 10 := by
  have hwf : DB.WF exDb := ⟨by simp [exDb], by simp [exDb]⟩
  obtain ⟨hlen, _⟩ := c3_context_window_bound hwf
    (show chat exDb (some exClaims) ⟨"hi", none⟩ (.ok []) = .stream _
      from rfl)
  exact ⟨hwf, _, rfl, hlen⟩

end Chatbot
